import Mathlib

/-!
Verification of the two FastAPI demo applications in this repository.

Component A (src/Basic/app.py, the Items Service) is embedded as pure
Lean functions: JSON-like values, the three handler bodies, and a model
of the framework's request validation layer (integer path parsing,
query-string minimum length, body shape checking) feeding a dispatcher.

Component B (src/FastAPIProject/main.py, the LMS router aggregator) is
embedded as a record carrying the application metadata and the list of
mounted route groups.
-/

namespace ItemsService

/-- JSON-like values appearing in requests and responses of the Items
Service: null, integers, and strings are the only shapes this program
produces or inspects. -/
inductive JVal where
  | jNull : JVal
  | jInt : Int → JVal
  | jStr : String → JVal
deriving DecidableEq, Repr

/-- A JSON object: an association list of string keys to values. -/
abbrev JObj := List (String × JVal)

/-- First-match lookup of a key in a JSON object. -/
def lookup (o : JObj) (k : String) : Option JVal :=
  match o with
  | [] => none
  | (k2, v) :: rest => if k2 = k then some v else lookup rest k

/-- Handler of GET /; in app.py: read_root returns the fixed
dictionary mapping "Hello" to "World". -/
def read_root : JObj := [("Hello", JVal.jStr "World")]

/-- Handler of GET /items/(item_id); in app.py: read_item returns a
dictionary with the parsed item_id and the optional query parameter q,
null when q was omitted. -/
def read_item (item_id : Int) (q : Option String) : JObj :=
  [("item_id", JVal.jInt item_id),
   ("q", match q with
         | none => JVal.jNull
         | some s => JVal.jStr s)]

/-- The Pydantic model Item of app.py: two required string fields. -/
structure Item where
  name : String
  description : String
deriving DecidableEq, Repr

/-- Handler of POST /items/; in app.py: create_item returns a
dictionary with the name and description of the validated item. -/
def create_item (item : Item) : JObj :=
  [("name", JVal.jStr item.name),
   ("description", JVal.jStr item.description)]

/-- The minimum length constraint on q declared in the route
signature of read_item: Query(None, min_length=3). -/
def q_min_length : Nat := 3

/-- Validation failures produced by the framework's automatic request
validation before a handler runs. -/
inductive ValidationError where
  | pathNotInt (segment : String)
  | queryTooShort (given : String)
  | bodyInvalid
deriving DecidableEq, Repr

/-- Value of a decimal digit character, none for any other character.
Models one character step of the framework's integer coercion. -/
def digitVal? (c : Char) : Option Nat :=
  if 48 ≤ c.toNat ∧ c.toNat ≤ 57 then some (c.toNat - 48) else none

/-- Left fold accumulating a decimal number over a character list;
fails on the first non-digit character. -/
def parseDigits : List Char → Nat → Option Nat
  | [], acc => some acc
  | c :: cs, acc =>
    match digitVal? c with
    | some d => parseDigits cs (10 * acc + d)
    | none => none

/-- Parse a nonempty all-digit character list as a natural number. -/
def parseNatChars? (cs : List Char) : Option Nat :=
  if cs.isEmpty then none else parseDigits cs 0

/-- Model of the framework's coercion of a path segment to an integer
for the item_id parameter: an optional leading minus sign followed by
one or more decimal digits. -/
def parseInt? (s : String) : Option Int :=
  match s.data with
  | [] => none
  | c :: cs =>
    if c = '-' then (parseNatChars? cs).map (fun m => -(Int.ofNat m))
    else (parseDigits (c :: cs) 0).map Int.ofNat

/-- Model of the framework's validation of the optional query
parameter q: absent is accepted as null, a supplied value must have
length at least q_min_length. -/
def validate_q (q : Option String) : Except ValidationError (Option String) :=
  match q with
  | none => Except.ok none
  | some s =>
    if s.length ≥ q_min_length then Except.ok (some s)
    else Except.error (ValidationError.queryTooShort s)

/-- Extract a string value, rejecting absent keys and non-string
values. -/
def asStr? : Option JVal → Option String
  | some (JVal.jStr s) => some s
  | _ => none

/-- Model of Pydantic's validation of a request body against Item:
both fields must be present and string-typed; any other keys are
ignored. -/
def parseItem? (body : JObj) : Option Item :=
  match asStr? (lookup body "name"), asStr? (lookup body "description") with
  | some n, some d => some { name := n, description := d }
  | _, _ => none

/-- An incoming request to one of the three routes of the Items
Service. -/
inductive Request where
  | getRoot : Request
  | getItem (segment : String) (q : Option String) : Request
  | postItems (body : JObj) : Request

/-- The framework's dispatch: validate the request inputs, then run
the matching handler; a validation failure is returned without
invoking the handler. -/
def handle : Request → Except ValidationError JObj
  | Request.getRoot => Except.ok read_root
  | Request.getItem seg q =>
    match parseInt? seg with
    | none => Except.error (ValidationError.pathNotInt seg)
    | some n =>
      match validate_q q with
      | Except.error e => Except.error e
      | Except.ok qv => Except.ok (read_item n qv)
  | Request.postItems body =>
    match parseItem? body with
    | none => Except.error ValidationError.bodyInvalid
    | some it => Except.ok (create_item it)

/-- A sequence of requests handled by the service: there is no state,
each request is dispatched independently. -/
def runTrace (rs : List Request) : List (Except ValidationError JObj) :=
  rs.map handle

/-- Character of a decimal digit. -/
def digitChar (d : Nat) : Char := Char.ofNat (48 + d)

/-- Decimal digit characters of a natural number, most significant
first. -/
def natDecimalChars (n : Nat) : List Char :=
  if _h : n < 10 then [digitChar n]
  else natDecimalChars (n / 10) ++ [digitChar (n % 10)]
termination_by n
decreasing_by
  exact Nat.div_lt_self (by omega) (by omega)

/-- Decimal representation of an integer, as it appears as a URL path
segment. -/
def intDecimal (n : Int) : String :=
  if n < 0 then String.mk ('-' :: natDecimalChars n.natAbs)
  else String.mk (natDecimalChars n.toNat)

/-- A decimal digit character evaluates to its digit. -/
lemma digitVal_digitChar (d : Nat) (hd : d < 10) :
    digitVal? (digitChar d) = some d := by
  interval_cases d <;> decide

/-- A decimal digit character is not the minus sign. -/
lemma digitChar_ne_minus (d : Nat) (hd : d < 10) : digitChar d ≠ '-' := by
  interval_cases d <;> decide

/-- Folding the digit parser over an appended list composes. -/
lemma parseDigits_append (l1 l2 : List Char) (acc : Nat) :
    parseDigits (l1 ++ l2) acc =
      (parseDigits l1 acc).bind (fun m => parseDigits l2 m) := by
  induction l1 generalizing acc with
  | nil => simp [parseDigits]
  | cons c cs ih =>
    simp only [List.cons_append, parseDigits]
    cases h : digitVal? c with
    | none => simp
    | some d => simp [ih]

/-- The decimal representation of a natural number starts with a
digit character. -/
lemma natDecimalChars_cons (n : Nat) :
    ∃ d cs, natDecimalChars n = digitChar d :: cs ∧ d < 10 := by
  induction n using Nat.strong_induction_on with
  | _ n ih =>
    by_cases h : n < 10
    · exact ⟨n, [], by rw [natDecimalChars]; simp [h], h⟩
    · obtain ⟨d, cs, hEq, hd⟩ :=
        ih (n / 10) (Nat.div_lt_self (by omega) (by omega))
      exact ⟨d, cs ++ [digitChar (n % 10)],
        by rw [natDecimalChars]; simp [h, hEq], hd⟩

/-- Parsing the decimal representation of a natural number recovers
it. -/
lemma parseDigits_natDecimalChars (n : Nat) :
    parseDigits (natDecimalChars n) 0 = some n := by
  induction n using Nat.strong_induction_on with
  | _ n ih =>
    by_cases h : n < 10
    · rw [natDecimalChars]
      simp [h, parseDigits, digitVal_digitChar n h]
    · rw [natDecimalChars]
      simp only [h, dite_false]
      rw [parseDigits_append,
        ih (n / 10) (Nat.div_lt_self (by omega) (by omega))]
      simp [parseDigits, digitVal_digitChar (n % 10) (by omega)]
      omega

/-- Parsing the decimal representation of an integer recovers it:
the printer intDecimal and the framework's coercion model parseInt?
round-trip. -/
lemma parseInt_intDecimal (n : Int) : parseInt? (intDecimal n) = some n := by
  obtain ⟨d, cs, hEq, hd⟩ := natDecimalChars_cons n.natAbs
  by_cases hneg : n < 0
  · have hne : ¬ (natDecimalChars n.natAbs).isEmpty := by
      rw [hEq]; simp
    simp only [intDecimal, if_pos hneg, parseInt?]
    rw [if_pos trivial, parseNatChars?, if_neg hne, parseDigits_natDecimalChars]
    simp only [Option.map_some']
    exact congrArg some (by rw [Int.ofNat_eq_natCast]; omega)
  · have habs : n.toNat = n.natAbs := by omega
    simp only [intDecimal, if_neg hneg, parseInt?, habs, hEq]
    rw [if_neg (digitChar_ne_minus d hd), ← hEq, parseDigits_natDecimalChars]
    simp only [Option.map_some']
    exact congrArg some (by rw [Int.ofNat_eq_natCast]; omega)

end ItemsService

namespace LMS

/-- The three route groups mounted in main.py; their contents live in
the external api package and are not part of this repository's
source. -/
inductive RouterId where
  | users
  | courses
  | sections
deriving DecidableEq, Repr

/-- An application shell: the metadata passed to the FastAPI
constructor and the route groups registered on it, in registration
order. -/
structure AppShell where
  title : String
  description : String
  version : String
  routers : List RouterId
deriving DecidableEq, Repr

/-- The application object built by main.py: metadata from the
FastAPI(...) call, followed by the three include_router calls. -/
def lms_app : AppShell :=
  { title := "Fast API LMS"
  , description := "LMS for managing students and courses."
  , version := "0.0.1"
  , routers := [RouterId.users, RouterId.courses, RouterId.sections] }

end LMS

namespace ItemsService

/-- C7: every GET request to the root path succeeds and returns
exactly the fixed mapping of "Hello" to "World"; the route takes no
input and the dispatcher is stateless, so nothing else can influence
the response. -/
theorem read_root_constant :
    handle Request.getRoot = Except.ok [("Hello", JVal.jStr "World")] := rfl

/-- C1: for every integer n, a GET request for /items/ with path
segment the decimal representation of n and the query parameter q
omitted passes validation and returns the mapping of item_id to n and
q to null, the key q present and bound to null. -/
theorem read_item_omitted_q (n : Int) :
    handle (Request.getItem (intDecimal n) none) =
      Except.ok [("item_id", JVal.jInt n), ("q", JVal.jNull)] := by
  simp [handle, parseInt_intDecimal n, validate_q, read_item]

/-- C2: for every integer n and every string s of length at least 3,
a GET request for /items/ with path segment the decimal
representation of n and query parameter s passes validation and
returns the mapping echoing both inputs unchanged. -/
theorem read_item_with_q (n : Int) (s : String) (h : 3 ≤ s.length) :
    handle (Request.getItem (intDecimal n) (some s)) =
      Except.ok [("item_id", JVal.jInt n), ("q", JVal.jStr s)] := by
  have hq : q_min_length ≤ s.length := h
  simp [handle, parseInt_intDecimal n, validate_q, read_item, hq]

/-- Witness for C2 at n = 5, s = "abc". -/
theorem read_item_with_q_witness :
    3 ≤ ("abc" : String).length ∧
    handle (Request.getItem (intDecimal 5) (some "abc")) =
      Except.ok [("item_id", JVal.jInt 5), ("q", JVal.jStr "abc")] :=
  ⟨by decide, read_item_with_q 5 "abc" (by decide)⟩

/-- C3: for every integer n and every string s of length strictly
below 3, the empty string included, a GET request for /items/ with
path segment the decimal representation of n and query parameter s is
rejected by validation with a query-too-short failure; the handler is
never invoked. -/
theorem read_item_short_q_rejected (n : Int) (s : String) (h : s.length < 3) :
    handle (Request.getItem (intDecimal n) (some s)) =
      Except.error (ValidationError.queryTooShort s) := by
  have hq : ¬ q_min_length ≤ s.length := by
    simp only [q_min_length]; omega
  simp [handle, parseInt_intDecimal n, validate_q, hq]

/-- Witness for C3 at n = 1, s = "ab". -/
theorem read_item_short_q_rejected_witness :
    ("ab" : String).length < 3 ∧
    handle (Request.getItem (intDecimal 1) (some "ab")) =
      Except.error (ValidationError.queryTooShort "ab") :=
  ⟨by decide, read_item_short_q_rejected 1 "ab" (by decide)⟩

/-- C6: for every path segment that does not parse as an integer, a
GET request for /items/ with that segment is rejected by validation
with a path failure, whatever the query parameter; the handler is
never invoked. -/
theorem read_item_bad_segment_rejected (seg : String) (q : Option String)
    (h : parseInt? seg = none) :
    handle (Request.getItem seg q) =
      Except.error (ValidationError.pathNotInt seg) := by
  simp [handle, h]

/-- Witness for C6 at segment "abc". -/
theorem read_item_bad_segment_rejected_witness :
    parseInt? "abc" = none ∧
    handle (Request.getItem "abc" none) =
      Except.error (ValidationError.pathNotInt "abc") :=
  ⟨by decide, read_item_bad_segment_rejected "abc" none (by decide)⟩

/-- C4: every request body carrying string values under the keys name
and description passes validation, and POST /items/ returns exactly
the two submitted field values. -/
theorem create_item_valid_body (body : JObj) (nm ds : String)
    (hn : asStr? (lookup body "name") = some nm)
    (hd : asStr? (lookup body "description") = some ds) :
    handle (Request.postItems body) =
      Except.ok [("name", JVal.jStr nm), ("description", JVal.jStr ds)] := by
  simp [handle, parseItem?, hn, hd, create_item]

/-- Witness for C4 at the body with name "pen" and description
"blue pen". -/
theorem create_item_valid_body_witness :
    asStr? (lookup [("name", JVal.jStr "pen"),
      ("description", JVal.jStr "blue pen")] "name") = some "pen" ∧
    asStr? (lookup [("name", JVal.jStr "pen"),
      ("description", JVal.jStr "blue pen")] "description") = some "blue pen" ∧
    handle (Request.postItems [("name", JVal.jStr "pen"),
      ("description", JVal.jStr "blue pen")]) =
      Except.ok [("name", JVal.jStr "pen"),
        ("description", JVal.jStr "blue pen")] :=
  ⟨by decide, by decide,
    create_item_valid_body _ "pen" "blue pen" (by decide) (by decide)⟩

/-- C5: every request body in which the key name or the key
description is missing or bound to a non-string value is rejected by
validation, and POST /items/ returns a body failure instead of
invoking the handler. -/
theorem create_item_missing_field_rejected (body : JObj)
    (h : asStr? (lookup body "name") = none ∨
      asStr? (lookup body "description") = none) :
    handle (Request.postItems body) =
      Except.error ValidationError.bodyInvalid := by
  cases hn : asStr? (lookup body "name") with
  | none => simp [handle, parseItem?, hn]
  | some nm =>
    cases hd : asStr? (lookup body "description") with
    | none => simp [handle, parseItem?, hn, hd]
    | some ds =>
      rw [hn, hd] at h
      rcases h with h | h <;> simp at h

/-- Witness for C5 at a body missing the description field. -/
theorem create_item_missing_field_rejected_witness :
    asStr? (lookup [("name", JVal.jStr "pen")] "description") = none ∧
    handle (Request.postItems [("name", JVal.jStr "pen")]) =
      Except.error ValidationError.bodyInvalid :=
  ⟨by decide, create_item_missing_field_rejected _ (Or.inr (by decide))⟩

/-- C10: every request body carrying string values under name and
description, extra keys allowed anywhere, still passes validation,
and the response holds exactly the keys name and description with the
submitted values; any other key is absent from the response. -/
theorem create_item_extra_keys_dropped (body : JObj) (nm ds : String)
    (hn : asStr? (lookup body "name") = some nm)
    (hd : asStr? (lookup body "description") = some ds) :
    handle (Request.postItems body) =
      Except.ok [("name", JVal.jStr nm), ("description", JVal.jStr ds)] ∧
    ∀ k, k ≠ "name" → k ≠ "description" →
      lookup [("name", JVal.jStr nm), ("description", JVal.jStr ds)] k = none := by
  constructor
  · simp [handle, parseItem?, hn, hd, create_item]
  · intro k h1 h2
    simp only [lookup]
    rw [if_neg (fun hh => h1 hh.symm), if_neg (fun hh => h2 hh.symm)]

/-- Witness for C10 at a body with the extra key price between the
two required fields. -/
theorem create_item_extra_keys_dropped_witness :
    asStr? (lookup [("name", JVal.jStr "pen"), ("price", JVal.jInt 5),
      ("description", JVal.jStr "blue pen")] "name") = some "pen" ∧
    asStr? (lookup [("name", JVal.jStr "pen"), ("price", JVal.jInt 5),
      ("description", JVal.jStr "blue pen")] "description") = some "blue pen" ∧
    (handle (Request.postItems [("name", JVal.jStr "pen"),
        ("price", JVal.jInt 5), ("description", JVal.jStr "blue pen")]) =
      Except.ok [("name", JVal.jStr "pen"),
        ("description", JVal.jStr "blue pen")] ∧
    ∀ k, k ≠ "name" → k ≠ "description" →
      lookup [("name", JVal.jStr "pen"),
        ("description", JVal.jStr "blue pen")] k = none) :=
  ⟨by decide, by decide,
    create_item_extra_keys_dropped _ "pen" "blue pen" (by decide) (by decide)⟩

/-- C8: the handlers are deterministic and share no state: in any
trace of requests, the response at a given position is exactly the
dispatch of the request at that position, whatever requests come
before or after it, so two invocations with the same inputs always
produce the same output. -/
theorem handlers_stateless (pre post : List Request) (r : Request) :
    (runTrace (pre ++ r :: post))[pre.length]? = some (handle r) := by
  rw [runTrace, List.map_append, List.map_cons,
    List.getElem?_append_right (by simp)]
  simp

end ItemsService

namespace LMS

/-- C9: main.py constructs exactly one application object whose title
is "Fast API LMS", whose description is "LMS for managing students
and courses.", whose version is "0.0.1", and on which exactly the
three external route groups users, courses and sections are
registered, in that order, with no further logic. -/
theorem lms_app_shape :
    lms_app.title = "Fast API LMS" ∧
    lms_app.description = "LMS for managing students and courses." ∧
    lms_app.version = "0.0.1" ∧
    lms_app.routers = [RouterId.users, RouterId.courses, RouterId.sections] ∧
    lms_app.routers.length = 3 :=
  ⟨rfl, rfl, rfl, rfl, rfl⟩

end LMS
